import Mathlib

/-!
Verification of the Forward AI data-analysis microservice
(src/lib/data_service/data_service.py).

The development shallowly embeds the skill-extraction core:
the mock fallback table, the Adzuna corpus provider with its
credential/failure strategy, and the KeyBERT-based keyword
extraction pipeline (candidate generation, relevance scoring and
MMR diversity selection, modelled from the specification since the
KeyBERT library itself is an external dependency).
-/

namespace DataService

/-- The two curated descriptions stored under the `"default"` key of
`MOCK_JOB_DESCRIPTIONS` (data_service.py lines 55-69). -/
def default_descriptions : List String :=
  [ "We are looking for a skilled developer with experience in Python, JavaScript, React, Node.js, SQL, Docker, Git, REST APIs, Agile methodologies, and CI/CD pipelines. Strong problem-solving skills and teamwork required. Experience with cloud platforms like AWS or Azure is a plus."
  , "The ideal candidate should have proficiency in data structures, algorithms, system design, microservices architecture, and database management. Knowledge of TypeScript, GraphQL, Redis, and Kubernetes is highly desirable." ]

/-- The three curated descriptions stored under the `"flutter developer"`
key of `MOCK_JOB_DESCRIPTIONS` (data_service.py lines 70-88). -/
def flutter_descriptions : List String :=
  [ "We need a Flutter Developer proficient in Dart, Flutter SDK, Firebase, Bloc/Cubit state management, REST API integration, Git version control, and responsive UI design. Experience with provider pattern, clean architecture, and CI/CD for mobile apps."
  , "Looking for a mobile developer experienced in Flutter, Dart, Firebase Authentication, Cloud Firestore, Push Notifications, GetX or Riverpod state management, unit testing, integration testing, and publishing to Google Play & App Store."
  , "Flutter engineer needed with skills in Dart, Material Design, Cupertino widgets, platform channels, Hive/SQLite local storage, Dio HTTP client, WebSocket, Git, and Agile development." ]

/-- The static fallback table `MOCK_JOB_DESCRIPTIONS` of
data_service.py (lines 54-140), keyed by lowercase job title. -/
def MOCK_JOB_DESCRIPTIONS : List (String × List String) :=
  [ ("default", default_descriptions)
  , ("flutter developer", flutter_descriptions)
  , ("data scientist",
      [ "Seeking a Data Scientist with expertise in Python, Pandas, NumPy, Scikit-learn, TensorFlow, SQL, data visualization with Matplotlib and Seaborn, statistical analysis, A/B testing, and machine learning model deployment."
      , "Data Scientist role requiring knowledge of deep learning, NLP, PyTorch, feature engineering, data pipelines, Apache Spark, Jupyter notebooks, Git, and cloud ML services (AWS SageMaker)." ])
  , ("backend developer",
      [ "Backend Developer needed with experience in Node.js, Express, Python, Django, PostgreSQL, MongoDB, Redis, Docker, Kubernetes, REST API design, GraphQL, authentication (JWT/OAuth), and microservices architecture."
      , "We are hiring a backend engineer skilled in Java, Spring Boot, SQL databases, message queues (RabbitMQ/Kafka), CI/CD, unit testing, system design, and cloud infrastructure (AWS/GCP)." ])
  , ("frontend developer",
      [ "Frontend Developer with expertise in React.js, TypeScript, HTML5, CSS3, Tailwind CSS, Next.js, Redux, Webpack, responsive design, cross-browser compatibility, and accessibility (WCAG)."
      , "Looking for a front-end engineer experienced in Vue.js or React, JavaScript ES6+, SASS/LESS, component libraries, state management, RESTful API consumption, Git, and performance optimization." ])
  , ("devops engineer",
      [ "DevOps Engineer with experience in Docker, Kubernetes, Terraform, CI/CD (Jenkins/GitHub Actions), AWS/GCP/Azure, Linux, Bash scripting, monitoring (Prometheus/Grafana), and Infrastructure as Code."
      , "Seeking a site reliability engineer skilled in containerization, orchestration, networking, security best practices, log aggregation (ELK stack), and incident response management." ]) ]

/-- Whitespace characters removed by Python `str.strip()`. -/
def isSpaceChar (c : Char) : Bool :=
  c == ' ' || c == '\t' || c == '\n' || c == '\r'

/-- Embedding of Python `str.strip()`: drop leading and trailing
whitespace. -/
def pyStrip (s : String) : String :=
  String.mk (((s.toList.dropWhile isSpaceChar).reverse.dropWhile
    isSpaceChar).reverse)

/-- Lower-casing of a single ASCII letter (Python `str.lower()` on the
ASCII titles and corpus text this service handles). -/
def lowerChar (c : Char) : Char :=
  if 'A' ≤ c && c ≤ 'Z' then Char.ofNat (c.toNat + 32) else c

/-- Embedding of Python `str.lower()`. -/
def pyLower (s : String) : String :=
  String.mk (s.toList.map lowerChar)

/-- Character-level join of a list of character lists with a separator,
underlying `pyJoin`. -/
def pyJoinList (sep : List Char) : List (List Char) → List Char
  | [] => []
  | [x] => x
  | x :: xs => x ++ sep ++ pyJoinList sep xs

/-- Embedding of Python `sep.join(strings)`. -/
def pyJoin (sep : String) (l : List String) : String :=
  String.mk (pyJoinList sep.toList (l.map String.toList))

/-- Python `dict.get(key, default)` over the association-list embedding
of `MOCK_JOB_DESCRIPTIONS`. -/
def dictGetD (d : List (String × List String)) (key : String)
    (dflt : List String) : List String :=
  match d.find? (fun p => p.1 == key) with
  | some p => p.2
  | none => dflt

/-- Embedding of `SkillExtractorService._get_mock_descriptions` (lines 317-338):
`key = job_title.strip().lower()`, then
`MOCK_JOB_DESCRIPTIONS.get(key, MOCK_JOB_DESCRIPTIONS["default"])`. -/
def get_mock_descriptions (job_title : String) : List String :=
  dictGetD MOCK_JOB_DESCRIPTIONS (pyLower (pyStrip job_title)) default_descriptions

/-- One raw Adzuna job object; only its `"description"` field is read by
the code (`job.get("description", "")` yields `""` when absent). -/
structure AdzunaJob where
  description : String
deriving DecidableEq, Repr

/-- Outcome of the single outbound HTTP attempt in `_fetch_from_adzuna`:
`failure` stands for any raised exception (network error, timeout, or
`raise_for_status` on a non-2xx response); `success results` stands for a
2xx response whose parsed JSON carried the given `"results"` array
(`data.get("results", [])` maps a missing field to `[]`). -/
inductive HttpOutcome where
  | failure : HttpOutcome
  | success : List AdzunaJob → HttpOutcome

/-- Requested page size of the Adzuna query: default of the
`results_per_page` parameter of `_fetch_from_adzuna` (line 260). It is
only interpolated into the request URL; the code never truncates the
response to it. -/
def adzuna_results_per_page : Nat := 10

/-- Embedding of `SkillExtractorService._fetch_from_adzuna` (lines 255-315).
`clean` embeds the external `BeautifulSoup(...).get_text(separator=" ",
strip=True)` HTML-stripping call. An exception propagates to the caller
(`Except.error`); zero results fall back to the mock table; otherwise the
non-empty `description` fields are cleaned and collected in order. -/
def fetch_from_adzuna (clean : String → String) (outcome : HttpOutcome)
    (job_title : String) : Except Unit (List String) :=
  match outcome with
  | .failure => .error ()
  | .success results =>
      if results.isEmpty then
        .ok (get_mock_descriptions job_title)
      else
        .ok (results.filterMap fun job =>
          if job.description = "" then none else some (clean job.description))

/-- The environment variables read by `_fetch_job_descriptions`
(lines 234-235): `ADZUNA_APP_ID` and `ADZUNA_APP_KEY`. -/
structure Env where
  adzuna_app_id : Option String
  adzuna_app_key : Option String

/-- Python truthiness of `os.environ.get(...)`: `None` and `""` are
falsy, any other string is truthy. -/
def truthy : Option String → Bool
  | none => false
  | some s => !(s == "")

/-- The guard `if not adzuna_app_id or not adzuna_app_key` of
line 238, negated: both credentials are present and non-empty. -/
def hasCreds (env : Env) : Bool :=
  truthy env.adzuna_app_id && truthy env.adzuna_app_key

/-- Embedding of `SkillExtractorService._fetch_job_descriptions` (lines 219-253):
missing credentials go straight to the mock table; otherwise the live
call is attempted and any exception falls back to the mock table. -/
def fetch_job_descriptions (env : Env) (clean : String → String)
    (outcome : HttpOutcome) (job_title : String) : List String :=
  if !(hasCreds env) then
    get_mock_descriptions job_title
  else
    match fetch_from_adzuna clean outcome job_title with
    | .error _ => get_mock_descriptions job_title
    | .ok descriptions => descriptions

/-- Modelled from the spec: the embedding/inference capability the core
consumes from its environment (spec 6), standing for the KeyBERT model
handle loaded in `SkillExtractorService.__init__` from the external
`keybert` package (not part of this repository). `embed` maps a text
span to its vector; `simVec` is the similarity of two embedding vectors
(cosine similarity in the library, kept abstract here since its square
roots leave the rationals). -/
structure Model where
  embed : String → List ℚ
  simVec : List ℚ → List ℚ → ℚ

/-- Modelled from the spec: a standard English stop-word list used by the
Candidate Generator (spec 4.2); the source passes the external library
token `stop_words="english"` (line 378). -/
def stop_words : List String :=
  [ "a", "an", "and", "are", "as", "at", "be", "by", "for", "from", "has"
  , "he", "in", "is", "it", "its", "of", "on", "or", "our", "should"
  , "that", "the", "their", "this", "to", "was", "we", "were", "will"
  , "with", "you", "your" ]

/-- Modelled from the spec: Candidate Generator normalization (spec 4.2):
lower-case the text, tokenize on word boundaries, and discard stop
words. -/
def tokenize (text : String) : List String :=
  ((pyLower text).split (fun c => !c.isAlphanum)).filter
    (fun w => w != "" && !(stop_words.contains w))

/-- All contiguous `n`-token spans of `tokens` (sliding window),
each rendered as a space-joined surface form. -/
def ngramList (tokens : List String) (n : Nat) : List String :=
  (List.range (tokens.length + 1 - n)).map
    (fun i => pyJoin " " ((tokens.drop i).take n))

/-- Deduplication keeping the first occurrence of each surface form. -/
def dedupAux (seen : List String) : List String → List String
  | [] => []
  | x :: xs =>
      if seen.contains x then dedupAux seen xs
      else x :: dedupAux (x :: seen) xs

/-- Modelled from the spec: the Candidate Generator (spec 4.2) —
all distinct 1-, 2- and 3-token spans of the normalized token stream,
deduplicated by surface form, in first-occurrence order. The source
requests this from KeyBERT via `keyphrase_ngram_range=(1, 3)`
(line 377). -/
def candidatesOf (text : String) : List String :=
  dedupAux []
    (ngramList (tokenize text) 1 ++ ngramList (tokenize text) 2
      ++ ngramList (tokenize text) 3)

/-- Maximum of a list of rationals (`0` on the empty list; the MMR loop
only applies it to non-empty selections). -/
def maxQ : List ℚ → ℚ
  | [] => 0
  | x :: xs => xs.foldl max x

/-- Similarity of two candidate surface forms through the model:
`simVec` applied to their embeddings. -/
def candSim (m : Model) (c s : String) : ℚ :=
  m.simVec (m.embed c) (m.embed s)

/-- Modelled from the spec: the MMR objective of the Diversity Selector
(spec 4.4 step 3a):
`mmr(c) = diversity * relevance(c)
  - (1 - diversity) * max over selected s of similarity(embed c, embed s)`.
Higher `diversity` weights relevance; the novelty penalty carries the
complementary weight. -/
def mmrScore (m : Model) (diversity : ℚ) (selected : List String)
    (c : String) (rel : ℚ) : ℚ :=
  diversity * rel - (1 - diversity) * maxQ (selected.map (candSim m c))

/-- Strict lexicographic comparison on (mmr score, relevance) pairs,
implementing the tie-break of spec 4.4 step 3b: higher mmr first, then
higher raw relevance. -/
def lexGt (p q : ℚ × ℚ) : Prop :=
  q.1 < p.1 ∨ (p.1 = q.1 ∧ q.2 < p.2)

instance (p q : ℚ × ℚ) : Decidable (lexGt p q) := by
  unfold lexGt; infer_instance

/-- Greedy argmax over a list under `lexGt`, keeping the earliest
element on full ties (first-occurrence order, spec 4.4 step 3b). -/
def argmaxLex (f : α → ℚ × ℚ) : List α → Option α
  | [] => none
  | x :: xs => some (xs.foldl (fun b y => if lexGt (f y) (f b) then y else b) x)

/-- Modelled from the spec: the iterative MMR loop (spec 4.4 step 3).
`fuel` is the number of picks still allowed; each round scores every
remaining candidate with `mmrScore` against the current selection,
appends the argmax and removes it from the remaining pool. -/
def mmrLoop (m : Model) (diversity : ℚ) :
    Nat → List (String × ℚ) → List (String × ℚ) → List (String × ℚ)
  | 0, _, selected => selected
  | fuel + 1, remaining, selected =>
      match argmaxLex
          (fun p => (mmrScore m diversity (selected.map Prod.fst) p.1 p.2, p.2))
          remaining with
      | none => selected
      | some best =>
          mmrLoop m diversity fuel
            (remaining.filter fun p => p.1 != best.1) (selected ++ [best])

/-- Modelled from the spec: the Diversity Selector (spec 4.4). The
highest-relevance candidate seeds the selection (step 2), then the MMR
loop fills up to `top_n` entries; the contract of spec 4.4 fixes the
result length at `min top_n |scored|`, so a `top_n` of `0` selects
nothing. -/
def mmrSelect (m : Model) (diversity : ℚ) (top_n : Nat)
    (scored : List (String × ℚ)) : List (String × ℚ) :=
  match top_n with
  | 0 => []
  | fuel + 1 =>
      match argmaxLex (fun p => (p.2, p.2)) scored with
      | none => []
      | some first =>
          mmrLoop m diversity fuel
            (scored.filter fun p => p.1 != first.1) [first]

/-- Modelled from the spec: the KeyBERT `extract_keywords` call of
line 375 (Candidate Generator, Relevance Ranker and Diversity Selector,
spec 4.2-4.4): generate candidates, score each by model similarity of
its embedding to the whole document's embedding, then run MMR; returns
(keyword, score) pairs. Zero candidates yield the empty list. -/
def keybert_extract_keywords (m : Model) (text : String) (top_n : Nat)
    (diversity : ℚ) : List (String × ℚ) :=
  let cands := candidatesOf text
  if cands.isEmpty then []
  else
    let docEmb := m.embed text
    let scored := cands.map fun c => (c, m.simVec (m.embed c) docEmb)
    mmrSelect m diversity top_n scored

/-- Embedding of `SkillExtractorService._extract_keywords` (lines 344-391). `model` is
`self._kw_model` (`none` when the KeyBERT load of `__init__` failed);
`kwRaises` records whether the library call raises, in which case the
`except` branch returns `[]`. On success the keyword strings are kept
and the scores discarded; the source fixes `diversity=0.5`. -/
def extract_keywords (model : Option Model) (kwRaises : Bool)
    (text : String) (top_n : Nat) : List String :=
  match model with
  | none => []
  | some m =>
      if kwRaises then []
      else (keybert_extract_keywords m text top_n (1 / 2)).map Prod.fst

/-- Embedding of `SkillExtractorService.extract_skills` (lines 181-213): fetch the
corpus, return `[]` on an empty corpus, otherwise join the descriptions
with single spaces and extract keywords from the aggregate. -/
def extract_skills (model : Option Model) (kwRaises : Bool) (env : Env)
    (clean : String → String) (outcome : HttpOutcome)
    (job_title : String) (top_n : Nat) : List String :=
  let descriptions := fetch_job_descriptions env clean outcome job_title
  if descriptions.isEmpty then []
  else extract_keywords model kwRaises (pyJoin " " descriptions) top_n

/-! ## Helper lemmas -/

/-- Every entry of the static fallback table carries at least one
description. -/
theorem mock_table_entries_nonempty :
    ∀ p ∈ MOCK_JOB_DESCRIPTIONS, p.2 ≠ [] := by decide

/-- The mock fallback never returns an empty corpus: every table entry is
non-empty and so is the default entry. -/
theorem get_mock_descriptions_ne_nil (title : String) :
    get_mock_descriptions title ≠ [] := by
  unfold get_mock_descriptions dictGetD
  cases h : MOCK_JOB_DESCRIPTIONS.find? (fun p => p.1 == pyLower (pyStrip title)) with
  | none => simp [default_descriptions]
  | some p =>
      simp only
      exact mock_table_entries_nonempty p (List.mem_of_find?_eq_some h)

/-- The element produced by the argmax fold is the seed or one of the
folded elements. -/
theorem foldl_pick_mem (f : α → ℚ × ℚ) (xs : List α) (b : α) :
    xs.foldl (fun b y => if lexGt (f y) (f b) then y else b) b = b
      ∨ xs.foldl (fun b y => if lexGt (f y) (f b) then y else b) b ∈ xs := by
  induction xs generalizing b with
  | nil => exact Or.inl rfl
  | cons y ys ih =>
      simp only [List.foldl_cons]
      rcases ih (if lexGt (f y) (f b) then y else b) with h | h
      · rw [h]
        by_cases hc : lexGt (f y) (f b)
        · rw [if_pos hc]
          exact Or.inr (List.mem_cons_self y ys)
        · rw [if_neg hc]
          exact Or.inl rfl
      · exact Or.inr (List.mem_cons_of_mem y h)

/-- The argmax of a list is a member of the list. -/
theorem argmaxLex_mem {f : α → ℚ × ℚ} {l : List α} {b : α}
    (h : argmaxLex f l = some b) : b ∈ l := by
  cases l with
  | nil => simp [argmaxLex] at h
  | cons x xs =>
      simp only [argmaxLex, Option.some.injEq] at h
      rcases foldl_pick_mem f xs x with h' | h'
      · rw [← h, h']; exact List.mem_cons_self x xs
      · rw [← h]; exact List.mem_cons_of_mem x h'

/-- Each MMR round adds at most one selection, so the loop adds at most
`fuel` entries. -/
theorem mmrLoop_length (m : Model) (d : ℚ) :
    ∀ (fuel : Nat) (rem sel : List (String × ℚ)),
      (mmrLoop m d fuel rem sel).length ≤ sel.length + fuel := by
  intro fuel
  induction fuel with
  | zero => intro rem sel; simp [mmrLoop]
  | succ k ih =>
      intro rem sel
      rw [mmrLoop]
      cases h : argmaxLex
          (fun p => (mmrScore m d (sel.map Prod.fst) p.1 p.2, p.2)) rem with
      | none => simp
      | some best =>
          calc (mmrLoop m d k (rem.filter fun p => p.1 != best.1)
                  (sel ++ [best])).length
              ≤ (sel ++ [best]).length + k := ih _ _
            _ = sel.length + (k + 1) := by
                  simp [List.length_append]
                  omega

/-- Every element selected by the MMR loop was already selected or came
from the remaining pool. -/
theorem mmrLoop_mem (m : Model) (d : ℚ) :
    ∀ (fuel : Nat) (rem sel : List (String × ℚ)) (p : String × ℚ),
      p ∈ mmrLoop m d fuel rem sel → p ∈ sel ∨ p ∈ rem := by
  intro fuel
  induction fuel with
  | zero => intro rem sel p hp; exact Or.inl (by simpa [mmrLoop] using hp)
  | succ k ih =>
      intro rem sel p hp
      rw [mmrLoop] at hp
      revert hp
      cases h : argmaxLex
          (fun p => (mmrScore m d (sel.map Prod.fst) p.1 p.2, p.2)) rem with
      | none => intro hp; exact Or.inl hp
      | some best =>
          intro hp
          rcases ih _ _ _ hp with h1 | h1
          · rcases List.mem_append.mp h1 with h2 | h2
            · exact Or.inl h2
            · have : p = best := by simpa using h2
              subst this
              exact Or.inr (argmaxLex_mem h)
          · exact Or.inr (List.mem_of_mem_filter h1)

/-- The Diversity Selector returns at most `top_n` keyphrases. -/
theorem mmrSelect_length (m : Model) (d : ℚ) (top_n : Nat)
    (scored : List (String × ℚ)) :
    (mmrSelect m d top_n scored).length ≤ top_n := by
  cases top_n with
  | zero => simp [mmrSelect]
  | succ k =>
      rw [mmrSelect]
      cases h : argmaxLex (fun p => (p.2, p.2)) scored with
      | none => simp
      | some first =>
          have h2 : (mmrLoop m d k (scored.filter fun p => p.1 != first.1)
              [first]).length ≤ 1 + k := by
            simpa using mmrLoop_length m d k
              (scored.filter fun p => p.1 != first.1) [first]
          show (mmrLoop m d k (scored.filter fun p => p.1 != first.1)
              [first]).length ≤ k + 1
          omega

/-- Every keyphrase returned by the Diversity Selector is one of the
scored candidates. -/
theorem mmrSelect_mem (m : Model) (d : ℚ) (top_n : Nat)
    (scored : List (String × ℚ)) (p : String × ℚ)
    (hp : p ∈ mmrSelect m d top_n scored) : p ∈ scored := by
  cases top_n with
  | zero => simp [mmrSelect] at hp
  | succ k =>
      rw [mmrSelect] at hp
      revert hp
      cases h : argmaxLex (fun p => (p.2, p.2)) scored with
      | none => intro hp; simp at hp
      | some first =>
          intro hp
          rcases mmrLoop_mem m d k _ _ _ hp with h1 | h1
          · have : p = first := by simpa using h1
            subst this
            exact argmaxLex_mem h
          · exact List.mem_of_mem_filter h1

/-- The modelled KeyBERT call returns at most `top_n` pairs. -/
theorem keybert_extract_keywords_length (m : Model) (text : String)
    (top_n : Nat) (d : ℚ) :
    (keybert_extract_keywords m text top_n d).length ≤ top_n := by
  unfold keybert_extract_keywords
  cases h : (candidatesOf text).isEmpty with
  | true => simp [h]
  | false =>
      simp only [h, Bool.false_eq_true, if_false]
      exact mmrSelect_length _ _ _ _

/-- Every keyword returned by the modelled KeyBERT call is one of the
generated candidate n-grams of the input text. -/
theorem keybert_extract_keywords_mem (m : Model) (text : String)
    (top_n : Nat) (d : ℚ) (p : String × ℚ)
    (hp : p ∈ keybert_extract_keywords m text top_n d) :
    p.1 ∈ candidatesOf text := by
  unfold keybert_extract_keywords at hp
  cases h : (candidatesOf text).isEmpty with
  | true => simp [h] at hp
  | false =>
      simp only [h, Bool.false_eq_true, if_false] at hp
      have := mmrSelect_mem _ _ _ _ _ hp
      rcases List.mem_map.mp this with ⟨c, hc, hcp⟩
      rw [← hcp]
      exact hc

/-- The keyword-extraction wrapper returns at most `top_n` strings. -/
theorem extract_keywords_length (model : Option Model) (kwRaises : Bool)
    (text : String) (top_n : Nat) :
    (extract_keywords model kwRaises text top_n).length ≤ top_n := by
  unfold extract_keywords
  cases model with
  | none => simp
  | some m =>
      cases kwRaises with
      | true => simp
      | false =>
          simpa using keybert_extract_keywords_length m text top_n (1 / 2)

/-- The pipeline returns at most `top_n` strings. -/
theorem extract_skills_length (model : Option Model) (kwRaises : Bool)
    (env : Env) (clean : String → String) (outcome : HttpOutcome)
    (title : String) (top_n : Nat) :
    (extract_skills model kwRaises env clean outcome title top_n).length
      ≤ top_n := by
  unfold extract_skills
  cases h : (fetch_job_descriptions env clean outcome title).isEmpty with
  | true => simp [h]
  | false =>
      simp only [h, Bool.false_eq_true, if_false]
      exact extract_keywords_length _ _ _ _

/-- Every string the pipeline returns is a candidate n-gram of the
space-joined corpus it fetched. -/
theorem extract_skills_mem (model : Option Model) (kwRaises : Bool)
    (env : Env) (clean : String → String) (outcome : HttpOutcome)
    (title : String) (top_n : Nat) (s : String)
    (hs : s ∈ extract_skills model kwRaises env clean outcome title top_n) :
    s ∈ candidatesOf
      (pyJoin " " (fetch_job_descriptions env clean outcome title)) := by
  unfold extract_skills at hs
  cases h : (fetch_job_descriptions env clean outcome title).isEmpty with
  | true => simp [h] at hs
  | false =>
      simp only [h, Bool.false_eq_true, if_false] at hs
      unfold extract_keywords at hs
      cases model with
      | none => simp at hs
      | some m =>
          cases hk : kwRaises with
          | true => simp [hk] at hs
          | false =>
              simp only [hk, Bool.false_eq_true, if_false] at hs
              rcases List.mem_map.mp hs with ⟨p, hp, hps⟩
              rw [← hps]
              exact keybert_extract_keywords_mem _ _ _ _ _ hp

/-- A concrete, trivially deterministic embedding model used by witness
instantiations. -/
def constModel : Model := ⟨fun _ => [1], fun _ _ => 0⟩

/-! ## Claim theorems -/

/-- C1 (counterexample): with credentials configured and a successful
Adzuna response whose single result has an empty `description` field, the
Corpus Provider returns the empty list — the successful primary path can
yield an empty corpus, contradicting the claim that the provider never
returns an empty list. -/
theorem C1_counterexample :
    fetch_job_descriptions ⟨some "id", some "key"⟩ (fun s => s)
      (.success [⟨""⟩]) "software engineer" = [] := by rfl

/-- C1 (amended): every fallback path (missing credentials, a raised
request, or zero results) returns the non-empty mock corpus; the
successful primary path with non-empty results returns exactly the
cleaned non-empty description fields, which is empty precisely when
every result's raw description is empty. -/
theorem C1_fetch_job_descriptions_fallback_nonempty (env : Env)
    (clean : String → String) (title : String) (results : List AdzunaJob) :
    get_mock_descriptions title ≠ []
    ∧ fetch_job_descriptions env clean .failure title
        = get_mock_descriptions title
    ∧ fetch_job_descriptions env clean (.success results) title
        = (if hasCreds env && !results.isEmpty then
             results.filterMap (fun job =>
               if job.description = "" then none
               else some (clean job.description))
           else get_mock_descriptions title)
    ∧ (results.filterMap (fun job =>
          if job.description = "" then none
          else some (clean job.description)) = []
        ↔ results.all (fun job => job.description == "") = true) := by
  refine ⟨get_mock_descriptions_ne_nil title, ?_, ?_, ?_⟩
  · cases hc : hasCreds env <;>
      simp [fetch_job_descriptions, fetch_from_adzuna, hc]
  · cases hc : hasCreds env <;>
      cases hre : results.isEmpty <;>
        simp [fetch_job_descriptions, fetch_from_adzuna, hc, hre]
  · have hx : ∀ job : AdzunaJob,
        ((if job.description = "" then none
          else some (clean job.description)) = none ↔ job.description = "") := by
      intro job
      by_cases hj : job.description = "" <;> simp [hj]
    simp [List.filterMap_eq_nil_iff, List.all_eq_true, hx]

/-- C2: the pipeline is total — with the embedding model missing it
returns `[]`; with the keyword-extraction call raising it returns `[]`;
a raised network fetch is recovered into the mock fallback corpus, and
then the pipeline behaves exactly as in the unconfigured case. -/
theorem C2_extract_skills_total (m : Model) (kwRaises : Bool) (env : Env)
    (clean : String → String) (outcome : HttpOutcome) (title : String)
    (top_n : Nat) :
    extract_skills none kwRaises env clean outcome title top_n = []
    ∧ extract_skills (some m) true env clean outcome title top_n = []
    ∧ fetch_job_descriptions env clean .failure title
        = get_mock_descriptions title
    ∧ extract_skills (some m) false env clean .failure title top_n
        = extract_skills (some m) false ⟨none, none⟩ clean .failure title
            top_n := by
  have hfail : ∀ e : Env, fetch_job_descriptions e clean .failure title
      = get_mock_descriptions title := by
    intro e
    cases hc : hasCreds e <;>
      simp [fetch_job_descriptions, fetch_from_adzuna, hc]
  refine ⟨?_, ?_, hfail env, ?_⟩
  · unfold extract_skills extract_keywords
    cases h : (fetch_job_descriptions env clean outcome title).isEmpty <;>
      simp [h]
  · unfold extract_skills extract_keywords
    cases h : (fetch_job_descriptions env clean outcome title).isEmpty <;>
      simp [h]
  · simp only [extract_skills, hfail env, hfail ⟨none, none⟩]

/-- C3: for every title and every `top_n`, the pipeline returns at most
`top_n` skills, and with `top_n = 0` it returns the empty list. -/
theorem C3_result_bounded_by_top_n (model : Option Model)
    (kwRaises : Bool) (env : Env) (clean : String → String)
    (outcome : HttpOutcome) (title : String) (top_n : Nat) :
    (extract_skills model kwRaises env clean outcome title top_n).length
        ≤ top_n
    ∧ extract_skills model kwRaises env clean outcome title 0 = [] := by
  refine ⟨extract_skills_length model kwRaises env clean outcome title top_n,
    ?_⟩
  have h0 := extract_skills_length model kwRaises env clean outcome title 0
  exact List.length_eq_zero.mp (Nat.le_zero.mp h0)

/-- C4: the Diversity Selector's objective satisfies
`mmr(c) = diversity * relevance(c) - (1 - diversity) * max similarity to
the selection`; raising `diversity` by Δ raises `mmr` by
`Δ * (relevance + max-similarity)`, so a higher diversity parameter
favors relevance over novelty (at `diversity = 1` the objective is raw
relevance, at `diversity = 0` it is pure novelty); the pipeline invokes
the selector at the default operating point `diversity = 1/2`. -/
theorem C4_mmr_formula (m : Model) (d d1 d2 : ℚ) (selected : List String)
    (c : String) (rel : ℚ) (text : String) (top_n : Nat) :
    mmrScore m d selected c rel
        = d * rel - (1 - d)
            * maxQ (selected.map fun s => m.simVec (m.embed c) (m.embed s))
    ∧ mmrScore m d1 selected c rel - mmrScore m d2 selected c rel
        = (d1 - d2) * (rel + maxQ (selected.map (candSim m c)))
    ∧ mmrScore m 1 selected c rel = rel
    ∧ mmrScore m 0 selected c rel = -maxQ (selected.map (candSim m c))
    ∧ extract_keywords (some m) false text top_n
        = (keybert_extract_keywords m text top_n (1 / 2)).map Prod.fst := by
  refine ⟨rfl, ?_, ?_, ?_, rfl⟩ <;> (unfold mmrScore; ring)

/-- C5: on every primary-source failure path the corpus is the mock
lookup of the case-folded, trimmed title, and a title with no exact
table match maps to the `"default"` entry of 2 descriptions. -/
theorem C5_fallback_lookup (env envAny : Env) (clean : String → String)
    (title : String) (outcome : HttpOutcome)
    (hmiss : MOCK_JOB_DESCRIPTIONS.find?
        (fun p => p.1 == pyLower (pyStrip title)) = none)
    (hnocred : hasCreds env = false) :
    fetch_job_descriptions env clean outcome title
        = get_mock_descriptions title
    ∧ fetch_job_descriptions envAny clean .failure title
        = get_mock_descriptions title
    ∧ fetch_job_descriptions envAny clean (.success []) title
        = get_mock_descriptions title
    ∧ get_mock_descriptions title
        = dictGetD MOCK_JOB_DESCRIPTIONS (pyLower (pyStrip title))
            default_descriptions
    ∧ get_mock_descriptions title = default_descriptions
    ∧ default_descriptions.length = 2 := by
  refine ⟨?_, ?_, ?_, rfl, ?_, rfl⟩
  · simp [fetch_job_descriptions, hnocred]
  · cases hc : hasCreds envAny <;>
      simp [fetch_job_descriptions, fetch_from_adzuna, hc]
  · cases hc : hasCreds envAny <;>
      simp [fetch_job_descriptions, fetch_from_adzuna, hc]
  · unfold get_mock_descriptions dictGetD
    rw [hmiss]

/-- Witness for C5 at the spec scenario: an unknown title with no
credentials configured falls back to the 2-description default entry. -/
theorem C5_fallback_lookup_witness :
    MOCK_JOB_DESCRIPTIONS.find?
        (fun p => p.1 == pyLower (pyStrip "unknown nonsense title xyz")) = none
    ∧ hasCreds ⟨none, none⟩ = false
    ∧ (fetch_job_descriptions ⟨none, none⟩ (fun s => s) .failure
          "unknown nonsense title xyz"
          = get_mock_descriptions "unknown nonsense title xyz"
       ∧ fetch_job_descriptions ⟨some "a", some "b"⟩ (fun s => s) .failure
          "unknown nonsense title xyz"
          = get_mock_descriptions "unknown nonsense title xyz"
       ∧ fetch_job_descriptions ⟨some "a", some "b"⟩ (fun s => s)
          (.success []) "unknown nonsense title xyz"
          = get_mock_descriptions "unknown nonsense title xyz"
       ∧ get_mock_descriptions "unknown nonsense title xyz"
          = dictGetD MOCK_JOB_DESCRIPTIONS
              (pyLower (pyStrip "unknown nonsense title xyz"))
              default_descriptions
       ∧ get_mock_descriptions "unknown nonsense title xyz"
          = default_descriptions
       ∧ default_descriptions.length = 2) :=
  ⟨by decide, rfl,
    C5_fallback_lookup ⟨none, none⟩ ⟨some "a", some "b"⟩ (fun s => s)
      "unknown nonsense title xyz" .failure (by decide) rfl⟩

/-- C6: if the embedding model failed to initialize (the handle is
`none`), the pipeline returns the empty list for every title and
`top_n`, whatever the corpus fetch produced. -/
theorem C6_model_none_degrades_to_empty (kwRaises : Bool) (env : Env)
    (clean : String → String) (outcome : HttpOutcome) (title : String)
    (top_n : Nat) :
    extract_skills none kwRaises env clean outcome title top_n = [] := by
  unfold extract_skills extract_keywords
  cases h : (fetch_job_descriptions env clean outcome title).isEmpty <;>
    simp [h]

/-- C7: with no credentials configured, the corpus for
`"flutter developer"` is exactly the 3 curated fallback descriptions of
that table key; the aggregated text is non-empty; the pipeline returns
at most `top_n` phrases, every one of which is a candidate n-gram
generated from that aggregated fallback text. -/
theorem C7_flutter_scenario (model : Option Model) (kwRaises : Bool)
    (clean : String → String) (outcome : HttpOutcome) (top_n : Nat) :
    fetch_job_descriptions ⟨none, none⟩ clean outcome "flutter developer"
        = flutter_descriptions
    ∧ flutter_descriptions.length = 3
    ∧ 0 < (pyJoin " " flutter_descriptions).length
    ∧ (extract_skills model kwRaises ⟨none, none⟩ clean outcome
        "flutter developer" top_n).length ≤ top_n
    ∧ (extract_skills model kwRaises ⟨none, none⟩ clean outcome
        "flutter developer" top_n).all
        (fun s =>
          (candidatesOf (pyJoin " " flutter_descriptions)).contains s)
        = true := by
  have hfetch : fetch_job_descriptions ⟨none, none⟩ clean outcome
      "flutter developer" = flutter_descriptions := by rfl
  have hlen : 0 < (pyJoin " " flutter_descriptions).length := by
    set_option maxRecDepth 20000 in decide
  refine ⟨hfetch, rfl, hlen,
    extract_skills_length model kwRaises ⟨none, none⟩ clean outcome
      "flutter developer" top_n, ?_⟩
  rw [List.all_eq_true]
  intro s hs
  have hmem := extract_skills_mem model kwRaises ⟨none, none⟩ clean outcome
    "flutter developer" top_n s hs
  rw [hfetch] at hmem
  exact List.elem_eq_true_of_mem hmem

/-- C8: the modelled KeyBERT extraction (candidate generation, relevance
ranking and MMR selection) is a pure function of the model, the
aggregated text, `top_n` and `diversity`: identical inputs produce an
identical ordered result. -/
theorem C8_selector_deterministic (m1 m2 : Model) (t1 t2 : String)
    (n1 n2 : Nat) (d1 d2 : ℚ) (hm : m1 = m2) (ht : t1 = t2)
    (hn : n1 = n2) (hd : d1 = d2) :
    keybert_extract_keywords m1 t1 n1 d1
      = keybert_extract_keywords m2 t2 n2 d2 := by
  subst hm; subst ht; subst hn; subst hd; rfl

/-- Witness for C8 at a concrete model, text and parameters. -/
theorem C8_selector_deterministic_witness :
    constModel = constModel ∧ ("python developer" : String) = "python developer"
    ∧ (2 : Nat) = 2 ∧ (1 / 2 : ℚ) = 1 / 2
    ∧ keybert_extract_keywords constModel "python developer" 2 (1 / 2)
        = keybert_extract_keywords constModel "python developer" 2 (1 / 2) :=
  ⟨rfl, rfl, rfl, rfl,
    C8_selector_deterministic constModel constModel "python developer"
      "python developer" 2 2 (1 / 2) (1 / 2) rfl rfl rfl rfl⟩

/-- C9: whenever the corpus fetch yields an empty list of descriptions,
the pipeline returns the empty list immediately, for every model handle
and extraction outcome — the later stages are never consulted. -/
theorem C9_empty_corpus_short_circuits (model : Option Model)
    (kwRaises : Bool) (env : Env) (clean : String → String)
    (outcome : HttpOutcome) (title : String) (top_n : Nat)
    (hempty : fetch_job_descriptions env clean outcome title = []) :
    extract_skills model kwRaises env clean outcome title top_n = [] := by
  simp [extract_skills, hempty]

/-- Witness for C9: a successful primary response whose only result has
an empty description produces an empty corpus, and the pipeline then
returns the empty list. -/
theorem C9_empty_corpus_short_circuits_witness :
    fetch_job_descriptions ⟨some "id", some "key"⟩ (fun s => s)
        (.success [⟨""⟩]) "devops" = []
    ∧ extract_skills (some constModel) false ⟨some "id", some "key"⟩
        (fun s => s) (.success [⟨""⟩]) "devops" 10 = [] :=
  ⟨by rfl,
    C9_empty_corpus_short_circuits (some constModel) false
      ⟨some "id", some "key"⟩ (fun s => s) (.success [⟨""⟩]) "devops" 10
      (by rfl)⟩

/-- C10 (counterexample): a successful Adzuna response of 11 results
with non-empty descriptions yields a corpus of 11 entries — the code
never truncates the response to the requested `results_per_page` of 10,
so the claimed bound fails when the server returns more. -/
theorem C10_counterexample :
    fetch_from_adzuna (fun s => s)
        (.success (List.replicate 11 ⟨"desc"⟩)) "engineer"
      = .ok (List.replicate 11 "desc")
    ∧ adzuna_results_per_page < (List.replicate 11 "desc").length := by
  exact ⟨by rfl, by decide⟩

/-- C10 (amended): whenever the primary fetch succeeds with a non-empty
results list, the returned corpus is exactly the cleaned texts of those
results whose raw description is non-empty, in response order, and its
length is bounded by the number of results actually returned (not by
`results_per_page`, which the code only sends as a query parameter). -/
theorem C10_adzuna_success_shape (clean : String → String)
    (results : List AdzunaJob) (title : String) (hne : results ≠ []) :
    fetch_from_adzuna clean (.success results) title
        = .ok (results.filterMap fun job =>
            if job.description = "" then none
            else some (clean job.description))
    ∧ (results.filterMap fun job =>
          if job.description = "" then none
          else some (clean job.description)).length ≤ results.length := by
  constructor
  · simp [fetch_from_adzuna, List.isEmpty_iff, hne]
  · exact List.length_filterMap_le _ _

/-- Witness for C10 (amended) on a two-result response with one empty
description. -/
theorem C10_adzuna_success_shape_witness :
    ([(⟨"python and sql"⟩ : AdzunaJob), ⟨""⟩] ≠ [])
    ∧ (fetch_from_adzuna (fun s => s)
          (.success [⟨"python and sql"⟩, ⟨""⟩]) "backend developer"
          = .ok ([(⟨"python and sql"⟩ : AdzunaJob), ⟨""⟩].filterMap fun job =>
              if job.description = "" then none
              else some ((fun s : String => s) job.description))
       ∧ ([(⟨"python and sql"⟩ : AdzunaJob), ⟨""⟩].filterMap fun job =>
            if job.description = "" then none
            else some ((fun s : String => s) job.description)).length
          ≤ [(⟨"python and sql"⟩ : AdzunaJob), ⟨""⟩].length) :=
  ⟨by decide,
    C10_adzuna_success_shape (fun s => s) [⟨"python and sql"⟩, ⟨""⟩]
      "backend developer" (by decide)⟩

end DataService
